import Mathlib

/-!
Verification of the neural-network demo's numerical core.

This file gives a shallow embedding, over the real numbers, of:
* `ToyNet` (part_003): the fixed-topology 2 → 4 → 8 → 2 MLP with
  `forwardSingle` inference, `trainBatch` training and `setLearningRate`;
* the field fragment shader (shaders/field.frag): the GPU mirror of the
  forward pass;
* `optimizerApplyUpdate` (src/core/Optimizer.cpp): SGD, SGD+Momentum, Adam;
* `Trainer` (part_009 / part_012): `makeBatch`, `stepOnce`, `stepAuto`.

C++ `float` arithmetic is modelled by exact real arithmetic; the flat
parameter vectors are modelled as functions from flat indices to reals,
accessed through the same row-major index formula `row*cols+col` as the
source.
-/

namespace NNDemo

/-- Network topology constants from ToyNet.h. -/
def InputDim : ℕ := 2

def Hidden1 : ℕ := 4

def Hidden2 : ℕ := 8

def OutputDim : ℕ := 2

def MaxBatch : ℕ := 256

/-- Row-major flat index, `idx(row, col, cols) = row*cols + col`. -/
def idx (row col cols : ℕ) : ℕ := row * cols + col

/-- ReLU as written in part_003: `x > 0 ? x : 0`. -/
noncomputable def relu (x : ℝ) : ℝ := if x > 0 then x else 0

/-- A dataset sample `(x, y, label)`. -/
structure DataPoint where
  x : ℝ
  y : ℝ
  label : ℕ

/-- The state of `ToyNet` (part_003): six flat parameter arrays, six
gradient buffers and the learning rate.  Scratch activation buffers are
recomputed from scratch on every call and carry no information between
calls, so they are not part of the modelled state. -/
structure ToyNet where
  W1 : ℕ → ℝ
  b1 : ℕ → ℝ
  W2 : ℕ → ℝ
  b2 : ℕ → ℝ
  W3 : ℕ → ℝ
  b3 : ℕ → ℝ
  dW1 : ℕ → ℝ
  db1 : ℕ → ℝ
  dW2 : ℕ → ℝ
  db2 : ℕ → ℝ
  dW3 : ℕ → ℝ
  db3 : ℕ → ℝ
  learningRate : ℝ

/-- The two-element input array `a_in = {x, y}`. -/
noncomputable def inputAt (x y : ℝ) : ℕ → ℝ :=
  fun i => if i = 0 then x else if i = 1 then y else 0

/-- Layer-1 pre-activation `z1[j] = b1[j] + sum_i W1[idx(j,i,InputDim)] * a_in[i]`. -/
noncomputable def ToyNet.z1At (net : ToyNet) (x y : ℝ) (j : ℕ) : ℝ :=
  net.b1 j + ∑ i ∈ Finset.range InputDim, net.W1 (idx j i InputDim) * inputAt x y i

/-- Layer-1 activation `a1[j] = relu(z1[j])`. -/
noncomputable def ToyNet.a1At (net : ToyNet) (x y : ℝ) (j : ℕ) : ℝ :=
  relu (net.z1At x y j)

/-- Layer-2 pre-activation `z2[j] = b2[j] + sum_i W2[idx(j,i,Hidden1)] * a1[i]`. -/
noncomputable def ToyNet.z2At (net : ToyNet) (x y : ℝ) (j : ℕ) : ℝ :=
  net.b2 j + ∑ i ∈ Finset.range Hidden1, net.W2 (idx j i Hidden1) * net.a1At x y i

/-- Layer-2 activation `a2[j] = relu(z2[j])`. -/
noncomputable def ToyNet.a2At (net : ToyNet) (x y : ℝ) (j : ℕ) : ℝ :=
  relu (net.z2At x y j)

/-- Output logits `z3[k] = b3[k] + sum_j W3[idx(k,j,Hidden2)] * a2[j]`. -/
noncomputable def ToyNet.logitAt (net : ToyNet) (x y : ℝ) (k : ℕ) : ℝ :=
  net.b3 k + ∑ j ∈ Finset.range Hidden2, net.W3 (idx k j Hidden2) * net.a2At x y j

/-- The running maximum of the two logits.  The C++ loop starts from
`-infinity`, which any real value beats, so over the reals the loop
computes exactly the maximum of the two logits. -/
noncomputable def ToyNet.maxLogitAt (net : ToyNet) (x y : ℝ) : ℝ :=
  max (net.logitAt x y 0) (net.logitAt x y 1)

/-- The max-subtracted exponential `e_k = exp(z3[k] - maxLogit)`. -/
noncomputable def ToyNet.expAt (net : ToyNet) (x y : ℝ) (k : ℕ) : ℝ :=
  Real.exp (net.logitAt x y k - net.maxLogitAt x y)

/-- The softmax denominator `expSum = e_0 + e_1`. -/
noncomputable def ToyNet.expSumAt (net : ToyNet) (x y : ℝ) : ℝ :=
  net.expAt x y 0 + net.expAt x y 1

/-- The normalized probability `probs[k] = e_k / expSum` (batch path: no
degeneracy guard). -/
noncomputable def ToyNet.probAt (net : ToyNet) (x y : ℝ) (k : ℕ) : ℝ :=
  net.expAt x y k / net.expSumAt x y

/-- `ToyNet::forwardSingle` / `forwardSingleWithActivations` (part_003):
steps 1-5 of the forward pass with the degenerate-denominator guard
returning `(0.5, 0.5)`. -/
noncomputable def ToyNet.forwardSingle (net : ToyNet) (x y : ℝ) : ℝ × ℝ :=
  if net.expSumAt x y ≤ 0 then (0.5, 0.5)
  else (net.expAt x y 0 / net.expSumAt x y, net.expAt x y 1 / net.expSumAt x y)

/-- `ToyNet::setLearningRate` (part_003): stores the argument verbatim. -/
def ToyNet.setLearningRate (net : ToyNet) (lr : ℝ) : ToyNet :=
  { net with learningRate := lr }

/-- The probability the batch path assigns to the sample's true label:
the loop `if (k == label) correctProb = m_probs[k]` leaves the initial
`0.0` in place when the label is outside `{0, 1}`. -/
noncomputable def ToyNet.correctProbAt (net : ToyNet) (p : DataPoint) : ℝ :=
  if p.label = 0 then net.probAt p.x p.y 0
  else if p.label = 1 then net.probAt p.x p.y 1
  else 0

/-- Per-sample cross-entropy loss `-log(max(correctProb, 1e-6))`. -/
noncomputable def ToyNet.sampleLoss (net : ToyNet) (p : DataPoint) : ℝ :=
  -Real.log (max (net.correctProbAt p) 1e-6)

/-- The argmax scan over `m_probs` with `bestProb` starting at `-1`:
class 0 always beats the initial `-1`, and class 1 replaces it only on a
strictly greater probability. -/
noncomputable def ToyNet.samplePred (net : ToyNet) (p : DataPoint) : ℕ :=
  if net.probAt p.x p.y 1 > net.probAt p.x p.y 0 then 1 else 0

/-- Output-layer error `delta3[k] = probs[k] - (k == label ? 1 : 0)`. -/
noncomputable def ToyNet.delta3 (net : ToyNet) (p : DataPoint) (k : ℕ) : ℝ :=
  net.probAt p.x p.y k - if k = p.label then 1 else 0

/-- Backpropagated pre-ReLU layer-2 error
`delta2Raw[j] = sum_k delta3[k] * W3[idx(k,j,Hidden2)]`. -/
noncomputable def ToyNet.delta2Raw (net : ToyNet) (p : DataPoint) (j : ℕ) : ℝ :=
  ∑ k ∈ Finset.range OutputDim, net.delta3 p k * net.W3 (idx k j Hidden2)

/-- Layer-2 error after the ReLU derivative: kept only where `z2[j] > 0`. -/
noncomputable def ToyNet.delta2 (net : ToyNet) (p : DataPoint) (j : ℕ) : ℝ :=
  if net.z2At p.x p.y j > 0 then net.delta2Raw p j else 0

/-- Backpropagated pre-ReLU layer-1 error
`delta1Raw[i] = sum_j delta2[j] * W2[idx(j,i,Hidden1)]`. -/
noncomputable def ToyNet.delta1Raw (net : ToyNet) (p : DataPoint) (i : ℕ) : ℝ :=
  ∑ j ∈ Finset.range Hidden2, net.delta2 p j * net.W2 (idx j i Hidden1)

/-- Layer-1 error after the ReLU derivative: kept only where `z1[i] > 0`. -/
noncomputable def ToyNet.delta1 (net : ToyNet) (p : DataPoint) (i : ℕ) : ℝ :=
  if net.z1At p.x p.y i > 0 then net.delta1Raw p i else 0

/-- The body of `ToyNet::trainBatch` applied to the (already truncated)
batch `b`: forward pass, loss and accuracy averages, gradient
accumulation divided by the batch size, and the in-place plain
gradient-descent parameter update.  Gradient buffers are zeroed first and
written only at flat indices inside each array's extent, so entries
outside the extent are `0`. -/
noncomputable def ToyNet.trainBatchOn (net : ToyNet) (b : List DataPoint) : ToyNet × ℝ × ℝ :=
  let n : ℝ := (b.length : ℝ)
  let loss := (b.map (fun p => net.sampleLoss p)).sum / n
  let acc := (b.map (fun p => if net.samplePred p = p.label then (1 : ℝ) else 0)).sum / n
  let gW1 : ℕ → ℝ := fun q =>
    if q < Hidden1 * InputDim then
      (b.map (fun p => net.delta1 p (q / InputDim) * inputAt p.x p.y (q % InputDim))).sum / n
    else 0
  let gb1 : ℕ → ℝ := fun q =>
    if q < Hidden1 then (b.map (fun p => net.delta1 p q)).sum / n else 0
  let gW2 : ℕ → ℝ := fun q =>
    if q < Hidden2 * Hidden1 then
      (b.map (fun p => net.delta2 p (q / Hidden1) * net.a1At p.x p.y (q % Hidden1))).sum / n
    else 0
  let gb2 : ℕ → ℝ := fun q =>
    if q < Hidden2 then (b.map (fun p => net.delta2 p q)).sum / n else 0
  let gW3 : ℕ → ℝ := fun q =>
    if q < OutputDim * Hidden2 then
      (b.map (fun p => net.delta3 p (q / Hidden2) * net.a2At p.x p.y (q % Hidden2))).sum / n
    else 0
  let gb3 : ℕ → ℝ := fun q =>
    if q < OutputDim then (b.map (fun p => net.delta3 p q)).sum / n else 0
  ({ W1 := fun q => net.W1 q - net.learningRate * gW1 q
     b1 := fun q => net.b1 q - net.learningRate * gb1 q
     W2 := fun q => net.W2 q - net.learningRate * gW2 q
     b2 := fun q => net.b2 q - net.learningRate * gb2 q
     W3 := fun q => net.W3 q - net.learningRate * gW3 q
     b3 := fun q => net.b3 q - net.learningRate * gb3 q
     dW1 := gW1, db1 := gb1, dW2 := gW2, db2 := gb2, dW3 := gW3, db3 := gb3
     learningRate := net.learningRate }, loss, acc)

/-- `ToyNet::trainBatch` (part_003): an empty batch returns
`(loss, accuracy) = (0, 0)` immediately and performs no work; otherwise
the batch size is clamped to `MaxBatch` and only the first
`min(N, MaxBatch)` samples are processed. -/
noncomputable def ToyNet.trainBatch (net : ToyNet) (batch : List DataPoint) : ToyNet × ℝ × ℝ :=
  if batch.isEmpty then (net, 0, 0)
  else net.trainBatchOn (batch.take (min batch.length MaxBatch))

/-! ## GPU mirror shader (shaders/field.frag)

The fragment shader receives the six parameter arrays as flat uniforms
`u_W1 .. u_b3` under the same row-major convention and re-executes the
forward pass per fragment.  Its ReLU is `max(sum, 0.0)` and its running
maximum starts from the sentinel `-1e30` rather than `-infinity`. -/

/-- Shader ReLU `max(sum, 0.0)`. -/
noncomputable def shRelu (x : ℝ) : ℝ := max x 0

/-- Shader layer-1 activation. -/
noncomputable def shA1 (uW1 ub1 : ℕ → ℝ) (x y : ℝ) (j : ℕ) : ℝ :=
  shRelu (ub1 j + ∑ i ∈ Finset.range InputDim, uW1 (idx j i InputDim) * inputAt x y i)

/-- Shader layer-2 activation. -/
noncomputable def shA2 (uW1 ub1 uW2 ub2 : ℕ → ℝ) (x y : ℝ) (j : ℕ) : ℝ :=
  shRelu (ub2 j + ∑ i ∈ Finset.range Hidden1, uW2 (idx j i Hidden1) * shA1 uW1 ub1 x y i)

/-- Shader output logit. -/
noncomputable def shLogit (uW1 ub1 uW2 ub2 uW3 ub3 : ℕ → ℝ) (x y : ℝ) (k : ℕ) : ℝ :=
  ub3 k + ∑ j ∈ Finset.range Hidden2, uW3 (idx k j Hidden2) * shA2 uW1 ub1 uW2 ub2 x y j

/-- The shader's running maximum over the two logits, seeded with the
`-1e30` sentinel: `maxLogit = -1e30; if (sum > maxLogit) maxLogit = sum;`. -/
noncomputable def shMaxLogit (l0 l1 : ℝ) : ℝ :=
  let m0 : ℝ := -1e30
  let m1 : ℝ := if l0 > m0 then l0 else m0
  if l1 > m1 then l1 else m1

/-- The class-1 probability computed by the field shader for the fragment
at `(x, y)`: `none` models the degenerate branch that paints neutral gray
instead of producing a probability. -/
noncomputable def shFieldP1 (uW1 ub1 uW2 ub2 uW3 ub3 : ℕ → ℝ) (x y : ℝ) : Option ℝ :=
  let l0 := shLogit uW1 ub1 uW2 ub2 uW3 ub3 x y 0
  let l1 := shLogit uW1 ub1 uW2 ub2 uW3 ub3 x y 1
  let m := shMaxLogit l0 l1
  let e0 := Real.exp (l0 - m)
  let e1 := Real.exp (l1 - m)
  if e0 + e1 ≤ 0 then none else some (e1 / (e0 + e1))

/-! ## Optimizer state engine (src/core/Optimizer.cpp) -/

/-- The three optimizer kinds. -/
inductive OptimizerType where
  | SGD
  | SGDMomentum
  | Adam

/-- `OptimizerConfig` from Optimizer.h. -/
structure OptimizerConfig where
  type : OptimizerType
  learningRate : ℝ
  momentum : ℝ
  beta1 : ℝ
  beta2 : ℝ
  eps : ℝ

/-- One value per parameter array, mirroring the six W/b vectors that
`optimizerApplyUpdate` receives for each of params, grads, first moments
and second moments. -/
@[ext]
structure OptArrays where
  W1 : ℕ → ℝ
  b1 : ℕ → ℝ
  W2 : ℕ → ℝ
  b2 : ℕ → ℝ
  W3 : ℕ → ℝ
  b3 : ℕ → ℝ

/-- The mutable arguments of `optimizerApplyUpdate`: parameters, averaged
gradients, the `m` arrays (velocity for momentum, first moment for Adam),
the `v` arrays (second moment), and the shared Adam step counter. -/
structure OptimizerState where
  params : OptArrays
  grads : OptArrays
  m : OptArrays
  v : OptArrays
  adamStep : ℕ

/-- Plain SGD loop body: `param[i] -= lr * grad[i]`. -/
noncomputable def sgdPair (lr : ℝ) (p g : ℕ → ℝ) : ℕ → ℝ :=
  fun i => p i - lr * g i

/-- Momentum velocity update: `v[i] = mu * v[i] - lr * grad[i]`. -/
noncomputable def momentumVel (lr mu : ℝ) (v g : ℕ → ℝ) : ℕ → ℝ :=
  fun i => mu * v i - lr * g i

/-- Adam first-moment update: `m[i] = beta1 * m[i] + (1 - beta1) * g`. -/
noncomputable def adamM (beta1 : ℝ) (m g : ℕ → ℝ) : ℕ → ℝ :=
  fun i => beta1 * m i + (1 - beta1) * g i

/-- Adam second-moment update: `v[i] = beta2 * v[i] + (1 - beta2) * g * g`. -/
noncomputable def adamV (beta2 : ℝ) (v g : ℕ → ℝ) : ℕ → ℝ :=
  fun i => beta2 * v i + (1 - beta2) * (g i * g i)

/-- Adam parameter update from the already-updated moments:
`param[i] -= lr * (m[i]/biasCorr1) / (sqrt(v[i]/biasCorr2) + eps)`. -/
noncomputable def adamParam (lr eps biasCorr1 biasCorr2 : ℝ) (p mNew vNew : ℕ → ℝ) : ℕ → ℝ :=
  fun i => p i - lr * (mNew i / biasCorr1) / (Real.sqrt (vNew i / biasCorr2) + eps)

/-- `optimizerApplyUpdate` (src/core/Optimizer.cpp): dispatches on the
configured kind and updates all six parameter/gradient pairs.  The Adam
branch increments the shared step counter once, before computing the
bias-correction denominators used by every element update. -/
noncomputable def optimizerApplyUpdate (cfg : OptimizerConfig) (st : OptimizerState) :
    OptimizerState :=
  match cfg.type with
  | .SGD =>
    let lr := cfg.learningRate
    { st with params :=
      { W1 := sgdPair lr st.params.W1 st.grads.W1
        b1 := sgdPair lr st.params.b1 st.grads.b1
        W2 := sgdPair lr st.params.W2 st.grads.W2
        b2 := sgdPair lr st.params.b2 st.grads.b2
        W3 := sgdPair lr st.params.W3 st.grads.W3
        b3 := sgdPair lr st.params.b3 st.grads.b3 } }
  | .SGDMomentum =>
    let lr := cfg.learningRate
    let mu := cfg.momentum
    let mW1 := momentumVel lr mu st.m.W1 st.grads.W1
    let mb1 := momentumVel lr mu st.m.b1 st.grads.b1
    let mW2 := momentumVel lr mu st.m.W2 st.grads.W2
    let mb2 := momentumVel lr mu st.m.b2 st.grads.b2
    let mW3 := momentumVel lr mu st.m.W3 st.grads.W3
    let mb3 := momentumVel lr mu st.m.b3 st.grads.b3
    { st with
      m := { W1 := mW1, b1 := mb1, W2 := mW2, b2 := mb2, W3 := mW3, b3 := mb3 }
      params :=
      { W1 := fun i => st.params.W1 i + mW1 i
        b1 := fun i => st.params.b1 i + mb1 i
        W2 := fun i => st.params.W2 i + mW2 i
        b2 := fun i => st.params.b2 i + mb2 i
        W3 := fun i => st.params.W3 i + mW3 i
        b3 := fun i => st.params.b3 i + mb3 i } }
  | .Adam =>
    let lr := cfg.learningRate
    let beta1 := cfg.beta1
    let beta2 := cfg.beta2
    let eps := cfg.eps
    let step := st.adamStep + 1
    let biasCorr1 := 1 - beta1 ^ step
    let biasCorr2 := 1 - beta2 ^ step
    let mW1 := adamM beta1 st.m.W1 st.grads.W1
    let mb1 := adamM beta1 st.m.b1 st.grads.b1
    let mW2 := adamM beta1 st.m.W2 st.grads.W2
    let mb2 := adamM beta1 st.m.b2 st.grads.b2
    let mW3 := adamM beta1 st.m.W3 st.grads.W3
    let mb3 := adamM beta1 st.m.b3 st.grads.b3
    let vW1 := adamV beta2 st.v.W1 st.grads.W1
    let vb1 := adamV beta2 st.v.b1 st.grads.b1
    let vW2 := adamV beta2 st.v.W2 st.grads.W2
    let vb2 := adamV beta2 st.v.b2 st.grads.b2
    let vW3 := adamV beta2 st.v.W3 st.grads.W3
    let vb3 := adamV beta2 st.v.b3 st.grads.b3
    { st with
      adamStep := step
      m := { W1 := mW1, b1 := mb1, W2 := mW2, b2 := mb2, W3 := mW3, b3 := mb3 }
      v := { W1 := vW1, b1 := vb1, W2 := vW2, b2 := vb2, W3 := vW3, b3 := vb3 }
      params :=
      { W1 := adamParam lr eps biasCorr1 biasCorr2 st.params.W1 mW1 vW1
        b1 := adamParam lr eps biasCorr1 biasCorr2 st.params.b1 mb1 vb1
        W2 := adamParam lr eps biasCorr1 biasCorr2 st.params.W2 mW2 vW2
        b2 := adamParam lr eps biasCorr1 biasCorr2 st.params.b2 mb2 vb2
        W3 := adamParam lr eps biasCorr1 biasCorr2 st.params.W3 mW3 vW3
        b3 := adamParam lr eps biasCorr1 biasCorr2 st.params.b3 mb3 vb3 } }

/-! ## Training controller (part_009 / part_012)

Both Trainer variants share the same `makeBatch`, `stepOnce` and
`stepAuto` logic; part_012 carries no history buffers, and no claim
concerns the history, so the modelled state is the part_012 field set. -/

/-- The default `DataPoint` used for the unchecked `dataset[m_dataCursor]`
access; under the cursor invariant the cursor is always in range. -/
def dpZero : DataPoint := { x := 0, y := 0, label := 0 }

/-- `Trainer` state (part_012 variant). -/
structure Trainer where
  net : ToyNet
  learningRate : ℝ
  batchSize : ℤ
  autoTrain : Bool
  autoMaxSteps : ℤ
  autoTargetLoss : ℝ
  stepCount : ℤ
  lastLoss : ℝ
  lastAccuracy : ℝ
  dataCursor : ℕ

/-- The clamp at the top of `Trainer::makeBatch`:
`if (size < 1) size = 1; if (size > MaxBatch) size = MaxBatch;`. -/
def clampBatchSize (size : ℤ) : ℕ :=
  (min (max size 1) (MaxBatch : ℤ)).toNat

/-- The sampling loop of `Trainer::makeBatch`: push the sample under the
cursor and advance the cursor by one modulo the dataset size, `count`
times. -/
def makeBatchGo (dataset : List DataPoint) (cursor : ℕ) : ℕ → List DataPoint × ℕ
  | 0 => ([], cursor)
  | count + 1 =>
    let p := dataset.getD cursor dpZero
    let rest := makeBatchGo dataset ((cursor + 1) % dataset.length) count
    (p :: rest.1, rest.2)

/-- `Trainer::makeBatch` (part_009 / part_012): clears the batch; on an
empty dataset returns immediately, otherwise draws the clamped batch size
of samples cyclically from the cursor.  Returns the freshly built batch
together with the trainer whose cursor has advanced. -/
def Trainer.makeBatch (t : Trainer) (dataset : List DataPoint) : List DataPoint × Trainer :=
  if dataset.isEmpty then ([], t)
  else
    let r := makeBatchGo dataset t.dataCursor (clampBatchSize t.batchSize)
    (r.1, { t with dataCursor := r.2 })

/-- `Trainer::stepOnce` (part_012): a guarded no-op on an empty dataset;
otherwise pushes the learning rate into the network, draws one batch,
trains on it, and increments the step counter. -/
noncomputable def Trainer.stepOnce (t : Trainer) (dataset : List DataPoint) : Trainer :=
  if dataset.isEmpty then t
  else
    let net0 := { t.net with learningRate := t.learningRate }
    let mb := t.makeBatch dataset
    let r := net0.trainBatch mb.1
    { mb.2 with
      net := r.1
      lastLoss := r.2.1
      lastAccuracy := r.2.2
      stepCount := t.stepCount + 1 }

open Classical in
/-- `Trainer::stepAuto` (part_009 / part_012): returns `false` without
stepping when auto-training is off; otherwise performs one `stepOnce` and
clears the auto-train flag as soon as
`stepCount >= autoMaxSteps || lastLoss <= autoTargetLoss`. -/
noncomputable def Trainer.stepAuto (t : Trainer) (dataset : List DataPoint) : Trainer × Bool :=
  if t.autoTrain = false then (t, false)
  else
    let t1 := t.stepOnce dataset
    if t1.stepCount ≥ t1.autoMaxSteps ∨ t1.lastLoss ≤ t1.autoTargetLoss then
      ({ t1 with autoTrain := false }, true)
    else (t1, true)

/-! ## Concrete instances used by witnesses and counterexamples -/

/-- A network with all parameters, gradients zero and learning rate 0.1. -/
noncomputable def netZero : ToyNet :=
  { W1 := fun _ => 0, b1 := fun _ => 0, W2 := fun _ => 0, b2 := fun _ => 0
    W3 := fun _ => 0, b3 := fun _ => 0
    dW1 := fun _ => 0, db1 := fun _ => 0, dW2 := fun _ => 0, db2 := fun _ => 0
    dW3 := fun _ => 0, db3 := fun _ => 0
    learningRate := 0.1 }

/-- A sample point used in witnesses. -/
noncomputable def dpTest : DataPoint := { x := 1, y := 2, label := 1 }

/-! ## Helper lemmas -/

/-- The source ReLU `x > 0 ? x : 0` agrees with the shader's `max(x, 0)`. -/
theorem shRelu_eq_relu (x : ℝ) : shRelu x = relu x := by
  unfold shRelu relu
  rcases le_or_lt x 0 with h | h
  · rw [if_neg (not_lt.mpr h), max_eq_right h]
  · rw [if_pos h, max_eq_left h.le]

theorem expAt_pos (net : ToyNet) (x y : ℝ) (k : ℕ) : 0 < net.expAt x y k :=
  Real.exp_pos _

theorem expSumAt_pos (net : ToyNet) (x y : ℝ) : 0 < net.expSumAt x y :=
  add_pos (expAt_pos net x y 0) (expAt_pos net x y 1)

theorem probAt_pos (net : ToyNet) (x y : ℝ) (k : ℕ) : 0 < net.probAt x y k :=
  div_pos (expAt_pos net x y k) (expSumAt_pos net x y)

theorem probAt_zero_lt_one (net : ToyNet) (x y : ℝ) : net.probAt x y 0 < 1 := by
  rw [ToyNet.probAt, div_lt_one (expSumAt_pos net x y), ToyNet.expSumAt]
  exact lt_add_of_pos_right _ (expAt_pos net x y 1)

theorem probAt_one_lt_one (net : ToyNet) (x y : ℝ) : net.probAt x y 1 < 1 := by
  rw [ToyNet.probAt, div_lt_one (expSumAt_pos net x y), ToyNet.expSumAt]
  exact lt_add_of_pos_left _ (expAt_pos net x y 0)

theorem correctProbAt_lt_one (net : ToyNet) (p : DataPoint) : net.correctProbAt p < 1 := by
  unfold ToyNet.correctProbAt
  split
  · exact probAt_zero_lt_one net p.x p.y
  · split
    · exact probAt_one_lt_one net p.x p.y
    · norm_num

theorem sampleLoss_pos (net : ToyNet) (p : DataPoint) : 0 < net.sampleLoss p := by
  unfold ToyNet.sampleLoss
  have h1 : (0 : ℝ) < max (net.correctProbAt p) 1e-6 :=
    lt_max_of_lt_right (by norm_num)
  have h2 : max (net.correctProbAt p) 1e-6 < 1 :=
    max_lt (correctProbAt_lt_one net p) (by norm_num)
  have := Real.log_neg h1 h2
  linarith

/-- Nonemptiness transfers to `isEmpty = false`. -/
theorem isEmpty_false_of_ne_nil {α : Type*} {l : List α} (h : l ≠ []) :
    l.isEmpty = false := by
  cases l with
  | nil => exact absurd rfl h
  | cons a l => rfl

/-! ## C2: softmax normalization and the degenerate guard of forwardSingle -/

/-- C2: for every input, the probabilities returned by `forwardSingle` sum
to 1 within 1e-5 (in exact real arithmetic they sum to exactly 1), and
whenever the softmax denominator is not positive the function returns
exactly `(0.5, 0.5)` by its guard branch. -/
theorem forwardSingle_sum_one_and_guard (net : ToyNet) (x y : ℝ) :
    |(net.forwardSingle x y).1 + (net.forwardSingle x y).2 - 1| ≤ 1e-5
    ∧ (net.expSumAt x y ≤ 0 → net.forwardSingle x y = (0.5, 0.5)) := by
  constructor
  · have hs : 0 < net.expSumAt x y := expSumAt_pos net x y
    rw [ToyNet.forwardSingle, if_neg (not_le.mpr hs)]
    have hsum : net.expAt x y 0 / net.expSumAt x y + net.expAt x y 1 / net.expSumAt x y = 1 := by
      rw [div_add_div_same, ← ToyNet.expSumAt, div_self (ne_of_gt hs)]
    simp only [hsum]
    norm_num
  · intro h
    rw [ToyNet.forwardSingle, if_pos h]

/-- Witness for C2 at a concrete network and input. -/
theorem forwardSingle_sum_one_witness :
    |(netZero.forwardSingle 0 0).1 + (netZero.forwardSingle 0 0).2 - 1| ≤ 1e-5 :=
  (forwardSingle_sum_one_and_guard netZero 0 0).1

/-! ## C4: an empty batch is a complete no-op -/

/-- C4: `trainBatch` on an empty batch returns loss 0 and accuracy 0 and
leaves the entire network state (all six parameter arrays, all six
gradient buffers, the learning rate) untouched. -/
theorem trainBatch_empty_noop (net : ToyNet) :
    net.trainBatch [] = (net, 0, 0) := rfl

/-! ## C9: setLearningRate does not clamp -/

/-- Counterexample to C9 as stated: passing `-1` stores `-1`, a negative
value, not the nearest valid non-negative bound. -/
theorem setLearningRate_negative_stored :
    (netZero.setLearningRate (-1)).learningRate = -1
    ∧ ¬(0 ≤ (netZero.setLearningRate (-1)).learningRate) := by
  refine ⟨rfl, ?_⟩
  show ¬((0 : ℝ) ≤ -1)
  norm_num

/-- C9 amended: `setLearningRate` stores its argument verbatim, with no
clamping of out-of-range values. -/
theorem setLearningRate_stores_verbatim (net : ToyNet) (lr : ℝ) :
    (net.setLearningRate lr).learningRate = lr := rfl

/-! ## C5: SGD+Momentum with zero momentum equals plain SGD -/

/-- C5: one `optimizerApplyUpdate` step of kind SGD+Momentum with
momentum 0 produces exactly the same parameter arrays as one step of kind
SGD with the same learning rate, gradients and starting state. -/
theorem momentum_zero_matches_sgd (lr beta1 beta2 eps : ℝ) (st : OptimizerState) :
    (optimizerApplyUpdate ⟨.SGDMomentum, lr, 0, beta1, beta2, eps⟩ st).params
      = (optimizerApplyUpdate ⟨.SGD, lr, 0, beta1, beta2, eps⟩ st).params := by
  unfold optimizerApplyUpdate
  ext i <;> simp [momentumVel, sgdPair] <;> ring

/-! ## C6: Adam increments the shared step counter once per invocation -/

/-- C6: one invocation of the Adam branch bumps the shared step counter
by exactly one even though it updates all six parameter/gradient pairs,
and every element update uses bias-correction denominators built from the
already-incremented counter `t+1`: shown here for the first pair (`W1`)
and the last pair (`b3`).  Starting from a zero counter (first
invocation) the denominators are exactly `1-beta1` and `1-beta2`. -/
theorem adam_single_counter_increment (lr mu beta1 beta2 eps : ℝ) (st : OptimizerState) :
    (optimizerApplyUpdate ⟨.Adam, lr, mu, beta1, beta2, eps⟩ st).adamStep = st.adamStep + 1
    ∧ (∀ i, (optimizerApplyUpdate ⟨.Adam, lr, mu, beta1, beta2, eps⟩ st).params.W1 i
        = st.params.W1 i - lr * ((beta1 * st.m.W1 i + (1 - beta1) * st.grads.W1 i)
              / (1 - beta1 ^ (st.adamStep + 1)))
            / (Real.sqrt ((beta2 * st.v.W1 i + (1 - beta2) * (st.grads.W1 i * st.grads.W1 i))
                / (1 - beta2 ^ (st.adamStep + 1))) + eps))
    ∧ (∀ i, (optimizerApplyUpdate ⟨.Adam, lr, mu, beta1, beta2, eps⟩ st).params.b3 i
        = st.params.b3 i - lr * ((beta1 * st.m.b3 i + (1 - beta1) * st.grads.b3 i)
              / (1 - beta1 ^ (st.adamStep + 1)))
            / (Real.sqrt ((beta2 * st.v.b3 i + (1 - beta2) * (st.grads.b3 i * st.grads.b3 i))
                / (1 - beta2 ^ (st.adamStep + 1))) + eps))
    ∧ (∀ i, (optimizerApplyUpdate ⟨.Adam, lr, mu, beta1, beta2, eps⟩
          { st with adamStep := 0 }).params.W1 i
        = st.params.W1 i - lr * ((beta1 * st.m.W1 i + (1 - beta1) * st.grads.W1 i)
              / (1 - beta1))
            / (Real.sqrt ((beta2 * st.v.W1 i + (1 - beta2) * (st.grads.W1 i * st.grads.W1 i))
                / (1 - beta2)) + eps)) := by
  refine ⟨rfl, fun i => ?_, fun i => ?_, fun i => ?_⟩
  · simp [optimizerApplyUpdate, adamParam, adamM, adamV]
  · simp [optimizerApplyUpdate, adamParam, adamM, adamV]
  · simp [optimizerApplyUpdate, adamParam, adamM, adamV, pow_one]

/-! ## C3: non-negative loss, zero exactly on the empty batch -/

/-- The loss returned for a nonempty batch is strictly positive. -/
theorem trainBatchOn_loss_pos (net : ToyNet) (b : List DataPoint) (hb : b ≠ []) :
    0 < (net.trainBatchOn b).2.1 := by
  have hlen : 0 < b.length := List.length_pos.mpr hb
  have hmap : (b.map (fun p => net.sampleLoss p)) ≠ [] := by
    simpa using hb
  have hsum : 0 < (b.map (fun p => net.sampleLoss p)).sum := by
    refine List.sum_pos _ ?_ hmap
    intro a ha
    obtain ⟨p, -, rfl⟩ := List.mem_map.mp ha
    exact sampleLoss_pos net p
  have : (0 : ℝ) < (b.length : ℝ) := by exact_mod_cast hlen
  exact div_pos hsum this

/-- C3: `trainBatch` never returns a negative loss, and the returned loss
is zero exactly when the batch is empty: every nonempty batch yields a
strictly positive loss. -/
theorem trainBatch_loss_nonneg_zero_iff_empty (net : ToyNet) (batch : List DataPoint) :
    0 ≤ (net.trainBatch batch).2.1
    ∧ ((net.trainBatch batch).2.1 = 0 ↔ batch = []) := by
  cases batch with
  | nil =>
    refine ⟨le_refl 0, ?_⟩
    simp [ToyNet.trainBatch]
  | cons p rest =>
    have hne : (p :: rest : List DataPoint) ≠ [] := by simp
    have hb : ((p :: rest).take (min (p :: rest).length MaxBatch)) ≠ [] := by
      have h1 : 0 < min (p :: rest).length MaxBatch := by
        have : 0 < (p :: rest).length := List.length_pos.mpr hne
        have : 0 < MaxBatch := by norm_num [MaxBatch]
        omega
      have hlen : 0 < ((p :: rest).take (min (p :: rest).length MaxBatch)).length := by
        rw [List.length_take]
        have : 0 < (p :: rest).length := List.length_pos.mpr hne
        omega
      exact List.ne_nil_of_length_pos hlen
    have hred : net.trainBatch (p :: rest)
        = net.trainBatchOn ((p :: rest).take (min (p :: rest).length MaxBatch)) := by
      rw [ToyNet.trainBatch, isEmpty_false_of_ne_nil hne]
      simp
    have hpos : 0 < (net.trainBatch (p :: rest)).2.1 := by
      rw [hred]
      exact trainBatchOn_loss_pos net _ hb
    refine ⟨le_of_lt hpos, ?_⟩
    constructor
    · intro h
      exact absurd h (ne_of_gt hpos)
    · intro h
      exact absurd h (by simp)

/-! ## C1: the field shader's per-fragment math matches forwardSingle -/

/-- The shader's layer-1 activation at the CPU parameters equals the CPU
layer-1 activation. -/
theorem shA1_eq (net : ToyNet) (x y : ℝ) (j : ℕ) :
    shA1 net.W1 net.b1 x y j = net.a1At x y j := by
  rw [shA1, ToyNet.a1At, ToyNet.z1At, shRelu_eq_relu]

/-- The shader's layer-2 activation at the CPU parameters equals the CPU
layer-2 activation. -/
theorem shA2_eq (net : ToyNet) (x y : ℝ) (j : ℕ) :
    shA2 net.W1 net.b1 net.W2 net.b2 x y j = net.a2At x y j := by
  rw [shA2, ToyNet.a2At, ToyNet.z2At, shRelu_eq_relu]
  congr 2
  refine Finset.sum_congr rfl fun i _ => ?_
  rw [shA1_eq]

/-- The shader's logits at the CPU parameters equal the CPU logits. -/
theorem shLogit_eq (net : ToyNet) (x y : ℝ) (k : ℕ) :
    shLogit net.W1 net.b1 net.W2 net.b2 net.W3 net.b3 x y k = net.logitAt x y k := by
  rw [shLogit, ToyNet.logitAt]
  congr 1
  refine Finset.sum_congr rfl fun j _ => ?_
  rw [shA2_eq]

/-- Max-subtracted two-class softmax is invariant in the subtracted
value: the `exp(-m)` factor cancels. -/
theorem softmax_p1_shift (l0 l1 m : ℝ) :
    Real.exp (l1 - m) / (Real.exp (l0 - m) + Real.exp (l1 - m))
      = Real.exp l1 / (Real.exp l0 + Real.exp l1) := by
  have e0 : Real.exp (l0 - m) = Real.exp l0 * Real.exp (-m) := by
    rw [sub_eq_add_neg, Real.exp_add]
  have e1 : Real.exp (l1 - m) = Real.exp l1 * Real.exp (-m) := by
    rw [sub_eq_add_neg, Real.exp_add]
  rw [e0, e1, ← add_mul, mul_div_mul_right _ _ (Real.exp_ne_zero (-m))]

/-- C1: on every input and every parameter set, the field shader takes
its non-degenerate branch and its class-1 probability agrees with the one
returned by `forwardSingle` — in exact real arithmetic they are equal, so
in particular within 1e-4. -/
theorem shader_matches_forwardSingle (net : ToyNet) (x y : ℝ) :
    ∃ p1s, shFieldP1 net.W1 net.b1 net.W2 net.b2 net.W3 net.b3 x y = some p1s
      ∧ |p1s - (net.forwardSingle x y).2| ≤ 1e-4 := by
  have hl0 := shLogit_eq net x y 0
  have hl1 := shLogit_eq net x y 1
  have hshPos : 0 < Real.exp (net.logitAt x y 0 - shMaxLogit (net.logitAt x y 0) (net.logitAt x y 1))
      + Real.exp (net.logitAt x y 1 - shMaxLogit (net.logitAt x y 0) (net.logitAt x y 1)) :=
    add_pos (Real.exp_pos _) (Real.exp_pos _)
  refine ⟨Real.exp (net.logitAt x y 1 - shMaxLogit (net.logitAt x y 0) (net.logitAt x y 1))
      / (Real.exp (net.logitAt x y 0 - shMaxLogit (net.logitAt x y 0) (net.logitAt x y 1))
        + Real.exp (net.logitAt x y 1 - shMaxLogit (net.logitAt x y 0) (net.logitAt x y 1))),
    ?_, ?_⟩
  · rw [shFieldP1]
    simp only [hl0, hl1]
    rw [if_neg (not_le.mpr hshPos)]
  · have hcpuPos : 0 < net.expSumAt x y := expSumAt_pos net x y
    have hcpu : (net.forwardSingle x y).2
        = Real.exp (net.logitAt x y 1) / (Real.exp (net.logitAt x y 0) + Real.exp (net.logitAt x y 1)) := by
      rw [ToyNet.forwardSingle, if_neg (not_le.mpr hcpuPos)]
      show net.expAt x y 1 / net.expSumAt x y = _
      rw [ToyNet.expSumAt, ToyNet.expAt, ToyNet.expAt, softmax_p1_shift]
    rw [hcpu, softmax_p1_shift]
    simp
    norm_num

/-! ## C10: oversized batches are truncated to the first MaxBatch samples -/

/-- C10: on a batch longer than `MaxBatch`, `trainBatch` behaves exactly
as on the batch's first `MaxBatch` samples — same loss, same accuracy,
same gradients, same parameter update — and the returned loss is the
per-sample loss summed over those `MaxBatch` samples divided by
`MaxBatch` (not by the full batch length). -/
theorem trainBatch_truncates_to_MaxBatch (net : ToyNet) (batch : List DataPoint)
    (h : MaxBatch < batch.length) :
    net.trainBatch batch = net.trainBatch (batch.take MaxBatch)
    ∧ (net.trainBatch batch).2.1
        = ((batch.take MaxBatch).map (fun p => net.sampleLoss p)).sum / (MaxBatch : ℝ) := by
  have hne : batch ≠ [] := by
    intro hnil
    rw [hnil] at h
    simp [MaxBatch] at h
  have hmin : min batch.length MaxBatch = MaxBatch := min_eq_right h.le
  have htlen : (batch.take MaxBatch).length = MaxBatch := by
    rw [List.length_take]
    omega
  have htne : batch.take MaxBatch ≠ [] := by
    apply List.ne_nil_of_length_pos
    rw [htlen]
    norm_num [MaxBatch]
  have hlhs : net.trainBatch batch = net.trainBatchOn (batch.take MaxBatch) := by
    rw [ToyNet.trainBatch, isEmpty_false_of_ne_nil hne]
    simp [hmin]
  have hrhs : net.trainBatch (batch.take MaxBatch) = net.trainBatchOn (batch.take MaxBatch) := by
    rw [ToyNet.trainBatch, isEmpty_false_of_ne_nil htne]
    simp [htlen, List.take_take]
  constructor
  · rw [hlhs, hrhs]
  · rw [hlhs]
    show ((batch.take MaxBatch).map (fun p => net.sampleLoss p)).sum
        / ((batch.take MaxBatch).length : ℝ) = _
    rw [htlen]

/-- A batch of 257 copies of the test point, one more than `MaxBatch`. -/
noncomputable def batch257 : List DataPoint := List.replicate 257 dpTest

/-- Witness for C10: the 257-sample batch is trained exactly as its first
256 samples. -/
theorem trainBatch_truncates_witness :
    MaxBatch < batch257.length
    ∧ netZero.trainBatch batch257 = netZero.trainBatch (batch257.take MaxBatch) := by
  have h : MaxBatch < batch257.length := by
    rw [batch257, List.length_replicate]
    norm_num [MaxBatch]
  exact ⟨h, (trainBatch_truncates_to_MaxBatch netZero batch257 h).1⟩

/-! ## C7: makeBatch draws consecutively from the cursor, wrapping cyclically -/

/-- The sampling loop takes the samples at cursor positions
`cursor, cursor+1, ..., cursor+count-1` modulo the dataset size and
leaves the cursor at `(cursor+count) mod size`. -/
theorem makeBatchGo_spec (ds : List DataPoint) (hne : ds ≠ []) :
    ∀ (count : ℕ) (cursor : ℕ), cursor < ds.length →
      makeBatchGo ds cursor count
        = ((List.range count).map (fun i => ds.getD ((cursor + i) % ds.length) dpZero),
           (cursor + count) % ds.length) := by
  have hlen : 0 < ds.length := List.length_pos.mpr hne
  intro count
  induction count with
  | zero =>
    intro cursor hc
    simp [makeBatchGo, Nat.mod_eq_of_lt hc]
  | succ k ih =>
    intro cursor hc
    rw [makeBatchGo, ih ((cursor + 1) % ds.length) (Nat.mod_lt _ hlen)]
    refine Prod.ext ?_ ?_
    · show ds.getD cursor dpZero :: _ = _
      rw [List.range_succ_eq_map, List.map_cons, List.map_map]
      refine congrArg₂ _ ?_ ?_
      · rw [Nat.add_zero, Nat.mod_eq_of_lt hc]
      · refine List.map_congr_left fun i _ => ?_
        show ds.getD (((cursor + 1) % ds.length + i) % ds.length) dpZero = _
        rw [Nat.mod_add_mod]
        congr 2
        omega
    · show ((cursor + 1) % ds.length + k) % ds.length = _
      rw [Nat.mod_add_mod]
      congr 1
      omega

/-- C7: on a nonempty dataset, `makeBatch` first clamps the configured
batch size into `[1, MaxBatch]`, then pushes exactly that many samples
taken consecutively from the dataset starting at the current cursor,
advancing the cursor by one modulo the dataset size for each sample. -/
theorem makeBatch_cyclic (t : Trainer) (ds : List DataPoint)
    (hne : ds ≠ []) (hc : t.dataCursor < ds.length) :
    (t.makeBatch ds).1 = (List.range (clampBatchSize t.batchSize)).map
        (fun i => ds.getD ((t.dataCursor + i) % ds.length) dpZero)
    ∧ (t.makeBatch ds).2.dataCursor
        = (t.dataCursor + clampBatchSize t.batchSize) % ds.length
    ∧ 1 ≤ clampBatchSize t.batchSize ∧ clampBatchSize t.batchSize ≤ MaxBatch := by
  have hclamp : 1 ≤ clampBatchSize t.batchSize ∧ clampBatchSize t.batchSize ≤ MaxBatch := by
    unfold clampBatchSize
    simp only [MaxBatch]
    omega
  have hgo := makeBatchGo_spec ds hne (clampBatchSize t.batchSize) t.dataCursor hc
  rw [Trainer.makeBatch, isEmpty_false_of_ne_nil hne]
  simp only [Bool.false_eq_true, if_false, hgo]
  simpa using hclamp

/-- Five distinct sample points. -/
noncomputable def dsFive : List DataPoint :=
  [{ x := 0, y := 0, label := 0 }, { x := 1, y := 0, label := 0 },
   { x := 2, y := 0, label := 1 }, { x := 3, y := 0, label := 1 },
   { x := 4, y := 0, label := 1 }]

/-- A trainer with batch size 1 and cursor 0 over the five-point dataset. -/
noncomputable def tFive : Trainer :=
  { net := netZero, learningRate := 0.1, batchSize := 1, autoTrain := false
    autoMaxSteps := 2000, autoTargetLoss := 0.01, stepCount := 0
    lastLoss := 0, lastAccuracy := 0, dataCursor := 0 }

/-- Witness for C7: with batch size 1 over the 5-sample dataset, five
successive `makeBatch` calls visit all five samples exactly once, in
round-robin order, and return the cursor to 0. -/
theorem makeBatch_cyclic_witness :
    (tFive.makeBatch dsFive).1 = [dsFive.getD 0 dpZero]
    ∧ ((tFive.makeBatch dsFive).2.makeBatch dsFive).1 = [dsFive.getD 1 dpZero]
    ∧ (((tFive.makeBatch dsFive).2.makeBatch dsFive).2.makeBatch dsFive).1
        = [dsFive.getD 2 dpZero]
    ∧ ((((tFive.makeBatch dsFive).2.makeBatch dsFive).2.makeBatch dsFive).2.makeBatch dsFive).1
        = [dsFive.getD 3 dpZero]
    ∧ (((((tFive.makeBatch dsFive).2.makeBatch dsFive).2.makeBatch dsFive).2.makeBatch
          dsFive).2.makeBatch dsFive).1 = [dsFive.getD 4 dpZero]
    ∧ (((((tFive.makeBatch dsFive).2.makeBatch dsFive).2.makeBatch dsFive).2.makeBatch
          dsFive).2.makeBatch dsFive).2.dataCursor = 0 := by
  have h1 := makeBatch_cyclic tFive dsFive (by simp [dsFive]) (by norm_num [tFive, dsFive])
  refine ⟨?_, ?_, ?_, ?_, ?_, ?_⟩
  · rw [h1.1]; rfl
  · rfl
  · rfl
  · rfl
  · rfl
  · rfl

/-! ## C8: autoMaxSteps = 0 does not disable the step bound -/

/-- On a nonempty batch, `trainBatch` reduces to the body applied to the
clamped prefix. -/
theorem trainBatch_cons_eq (net : ToyNet) (p : DataPoint) (rest : List DataPoint) :
    net.trainBatch (p :: rest)
      = net.trainBatchOn ((p :: rest).take (min (p :: rest).length MaxBatch)) := by
  rw [ToyNet.trainBatch, isEmpty_false_of_ne_nil (by simp)]
  simp

/-- The clamped prefix of a nonempty batch is nonempty. -/
theorem take_min_cons_ne_nil (p : DataPoint) (rest : List DataPoint) :
    (p :: rest).take (min (p :: rest).length MaxBatch) ≠ [] := by
  apply List.ne_nil_of_length_pos
  rw [List.length_take]
  have : 0 < (p :: rest).length := by simp
  have : 0 < MaxBatch := by norm_num [MaxBatch]
  omega

/-- The loss returned by `trainBatch` is never negative. -/
theorem trainBatch_loss_nonneg (net : ToyNet) (batch : List DataPoint) :
    0 ≤ (net.trainBatch batch).2.1 := by
  cases batch with
  | nil => exact le_refl 0
  | cons p rest =>
    rw [trainBatch_cons_eq]
    exact le_of_lt (trainBatchOn_loss_pos net _ (take_min_cons_ne_nil p rest))

/-- `stepOnce` leaves `autoMaxSteps` unchanged (via `makeBatch`, which
only moves the cursor). -/
theorem makeBatch_preserves_autoMaxSteps (t : Trainer) (ds : List DataPoint) :
    (t.makeBatch ds).2.autoMaxSteps = t.autoMaxSteps := by
  unfold Trainer.makeBatch
  split <;> rfl

theorem stepOnce_autoMaxSteps (t : Trainer) (ds : List DataPoint) :
    (t.stepOnce ds).autoMaxSteps = t.autoMaxSteps := by
  unfold Trainer.stepOnce
  split
  · rfl
  · exact makeBatch_preserves_autoMaxSteps t ds

/-- `stepOnce` never decreases the step counter. -/
theorem stepOnce_stepCount_ge (t : Trainer) (ds : List DataPoint) :
    t.stepCount ≤ (t.stepOnce ds).stepCount := by
  unfold Trainer.stepOnce
  split
  · exact le_refl _
  · show t.stepCount ≤ t.stepCount + 1
    omega

/-- After `stepOnce`, the recorded loss is never negative. -/
theorem stepOnce_lastLoss_nonneg (t : Trainer) (ds : List DataPoint) (h : 0 ≤ t.lastLoss) :
    0 ≤ (t.stepOnce ds).lastLoss := by
  unfold Trainer.stepOnce
  split
  · exact h
  · exact trainBatch_loss_nonneg _ _

/-- Trainer in auto mode with `autoMaxSteps = 0` and a target loss that a
nonnegative loss can never reach. -/
noncomputable def tAuto : Trainer :=
  { net := netZero, learningRate := 0.1, batchSize := 1, autoTrain := true
    autoMaxSteps := 0, autoTargetLoss := -1, stepCount := 0
    lastLoss := 0, lastAccuracy := 0, dataCursor := 0 }

/-- A one-point dataset. -/
noncomputable def dsOne : List DataPoint := [dpTest]

/-- Counterexample to C8 as stated: with `autoMaxSteps = 0` the step
bound is not disabled — after a single `stepAuto` the auto-train flag is
cleared even though the target-loss condition does not hold, because the
incremented step count already satisfies `stepCount >= autoMaxSteps`. -/
theorem stepAuto_zero_stops_immediately :
    tAuto.autoMaxSteps = 0
    ∧ (tAuto.stepAuto dsOne).1.autoTrain = false
    ∧ ¬((tAuto.stepAuto dsOne).1.lastLoss ≤ tAuto.autoTargetLoss) := by
  have hcond : (tAuto.stepOnce dsOne).stepCount ≥ (tAuto.stepOnce dsOne).autoMaxSteps := by
    rw [stepOnce_autoMaxSteps]
    have h0 : tAuto.autoMaxSteps = 0 := rfl
    rw [h0]
    have h1 : (0 : ℤ) ≤ tAuto.stepCount := le_refl 0
    exact le_trans h1 (stepOnce_stepCount_ge tAuto dsOne)
  have hred : (tAuto.stepAuto dsOne).1 = { tAuto.stepOnce dsOne with autoTrain := false } := by
    rw [Trainer.stepAuto, if_neg (by simp [tAuto]), if_pos (Or.inl hcond)]
  refine ⟨rfl, ?_, ?_⟩
  · rw [hred]
  · rw [hred]
    show ¬((tAuto.stepOnce dsOne).lastLoss ≤ tAuto.autoTargetLoss)
    have hn : 0 ≤ (tAuto.stepOnce dsOne).lastLoss :=
      stepOnce_lastLoss_nonneg tAuto dsOne (le_refl 0)
    have ht : tAuto.autoTargetLoss = -1 := rfl
    rw [ht]
    intro hle
    linarith

/-- C8 amended: `autoMaxSteps = 0` does not disable the step bound; for
any trainer in auto mode with `autoMaxSteps = 0` and a nonnegative step
count, `stepAuto` clears the auto-train flag immediately after its first
step, whatever the loss. -/
theorem stepAuto_zero_max_steps_stops (t : Trainer) (ds : List DataPoint)
    (hauto : t.autoTrain = true) (hmax : t.autoMaxSteps = 0) (hstep : 0 ≤ t.stepCount) :
    (t.stepAuto ds).1.autoTrain = false := by
  have hcond : (t.stepOnce ds).stepCount ≥ (t.stepOnce ds).autoMaxSteps := by
    rw [stepOnce_autoMaxSteps, hmax]
    exact le_trans hstep (stepOnce_stepCount_ge t ds)
  rw [Trainer.stepAuto, if_neg (by simp [hauto]), if_pos (Or.inl hcond)]

/-- Witness for the amended C8 at the concrete trainer and dataset. -/
theorem stepAuto_zero_max_steps_stops_witness :
    (tAuto.stepAuto dsOne).1.autoTrain = false :=
  stepAuto_zero_max_steps_stops tAuto dsOne rfl rfl (le_refl 0)

end NNDemo
